import Mathlib

/-!
Shallow embedding of `netlify/functions/validate-code.js` from the
fence-api-backend repository: the access-code validation decision procedure
(format check, appointment suffix matching, start-time resolution, access
window check), the timezone-offset parsing, the "today" bounds computation of
the appointment lookup, and the HTTP handler boundary.

JavaScript numbers holding epoch milliseconds are modelled as `Int` (all the
arithmetic involved is exact integer arithmetic, far below 2^53, so no
floating-point rounding is observable).  Fallible operations (JSON parsing,
`new Date(...)` on a string, the upstream fetch) are modelled with
`Option`/sum types.
-/

namespace FenceApi

/-- A GoHighLevel appointment record's `contactId` field as seen by the
validator: a string, absent, or present with a non-string value.  The source
guards with `typeof appt.contactId === "string"`, so the latter two behave
identically there. -/
inductive ContactIdField where
  | str (s : String)
  | absent
  | nonString
deriving DecidableEq, Repr

/-- An appointment record's `startTime` field: per the upstream contract it is
either numeric epoch milliseconds or an ISO-8601 string ("startTime may be
epoch ms (number) or an ISO string"). -/
inductive StartTimeField where
  | num (n : Int)
  | str (s : String)
deriving DecidableEq, Repr

/-- The part of an appointment record the validator reads. -/
structure Appointment where
  contactId : ContactIdField
  startTime : StartTimeField
deriving DecidableEq, Repr

/-- The validator's output: `{valid:true}` or `{valid:false, error:...}`. -/
inductive Verdict where
  | valid
  | invalid (error : String)
deriving DecidableEq, Repr

/-! ## JavaScript date parsing (the subset used by the validator)

`new Date(s).getTime()` on a string.  We model the ECMA-262 Date Time String
Format `YYYY-MM-DD[THH:mm[:ss[.sss]][Z|±HH:mm]]` restricted to forms whose
value does not depend on the host timezone: date-only forms (interpreted as
UTC) and date-time forms carrying an explicit `Z` or `±HH:mm` offset.
Date-time forms without an offset (host-local time) and all non-ISO inputs
are out of the modelled domain and map to `none` (= `NaN`). -/

/-- Numeric value of a decimal digit character. -/
def charDigitVal (c : Char) : Nat := c.toNat - 48

/-- Read exactly two decimal digits off the front of a character list. -/
def parse2 : List Char → Option (Nat × List Char)
  | c1 :: c2 :: rest =>
    if c1.isDigit && c2.isDigit then
      some (charDigitVal c1 * 10 + charDigitVal c2, rest)
    else none
  | _ => none

/-- Read exactly three decimal digits off the front of a character list. -/
def parse3 : List Char → Option (Nat × List Char)
  | c1 :: c2 :: c3 :: rest =>
    if c1.isDigit && c2.isDigit && c3.isDigit then
      some (charDigitVal c1 * 100 + charDigitVal c2 * 10 + charDigitVal c3, rest)
    else none
  | _ => none

/-- Read exactly four decimal digits off the front of a character list. -/
def parse4 : List Char → Option (Nat × List Char)
  | c1 :: c2 :: c3 :: c4 :: rest =>
    if c1.isDigit && c2.isDigit && c3.isDigit && c4.isDigit then
      some (charDigitVal c1 * 1000 + charDigitVal c2 * 100 +
            charDigitVal c3 * 10 + charDigitVal c4, rest)
    else none
  | _ => none

/-- Proleptic-Gregorian leap-year test. -/
def isLeapYear (y : Nat) : Bool :=
  (y % 4 == 0 && y % 100 != 0) || y % 400 == 0

/-- Number of days in month `m` (1-12) of year `y`. -/
def daysInMonth (y m : Nat) : Nat :=
  if m = 2 then (if isLeapYear y then 29 else 28)
  else if m = 4 ∨ m = 6 ∨ m = 9 ∨ m = 11 then 30
  else 31

/-- Days in the months of year `y` strictly before month `m`. -/
def daysBeforeMonth (y m : Nat) : Nat :=
  (List.range (m - 1)).foldl (fun acc i => acc + daysInMonth y (i + 1)) 0

/-- Leap years `k` with `0 ≤ k < y` (year 0 is a leap year). -/
def leapsBefore (y : Nat) : Nat :=
  if y = 0 then 0 else (y - 1) / 4 - (y - 1) / 100 + (y - 1) / 400 + 1

/-- Days from 0000-01-01 to `y`-`m`-`d` in the proleptic Gregorian calendar. -/
def daysFromYear0 (y m d : Nat) : Nat :=
  365 * y + leapsBefore y + daysBeforeMonth y m + (d - 1)

/-- Days from the Unix epoch 1970-01-01 to `y`-`m`-`d` (may be negative). -/
def daysSinceEpoch (y m d : Nat) : Int :=
  (daysFromYear0 y m d : Int) - 719528

/-- Trailing `Z` or `±HH:mm` timezone designator of an ISO date-time string,
as an offset in milliseconds. -/
def parseOffsetPart : List Char → Option Int
  | ['Z'] => some 0
  | c :: rest =>
    if c = '+' ∨ c = '-' then
      match parse2 rest with
      | some (hh, ':' :: rest2) =>
        match parse2 rest2 with
        | some (mm, []) =>
          if hh ≤ 23 ∧ mm ≤ 59 then
            some ((if c = '+' then 1 else -1) * ((hh : Int) * 60 + mm) * 60000)
          else none
        | _ => none
      | _ => none
    else none
  | _ => none

/-- Optional `:ss` / `:ss.sss` part of an ISO time: seconds, milliseconds and
the remaining characters. -/
def parseSecondsPart : List Char → Option (Nat × Nat × List Char)
  | ':' :: tr =>
    match parse2 tr with
    | some (ss, '.' :: tr2) =>
      match parse3 tr2 with
      | some (ms3, tr3) => some (ss, ms3, tr3)
      | none => none
    | some (ss, tr2) => some (ss, 0, tr2)
    | none => none
  | rest => some (0, 0, rest)

/-- `HH:mm[:ss[.sss]](Z|±HH:mm)` following the `T`: milliseconds into the day
and the timezone offset in milliseconds. -/
def parseTimePart (l : List Char) : Option (Int × Int) :=
  match parse2 l with
  | some (hh, ':' :: tr) =>
    match parse2 tr with
    | some (mi, tr2) =>
      match parseSecondsPart tr2 with
      | some (ss, ms3, tr3) =>
        match parseOffsetPart tr3 with
        | some offMs =>
          if (hh ≤ 23 ∨ (hh = 24 ∧ mi = 0 ∧ ss = 0 ∧ ms3 = 0)) ∧ mi ≤ 59 ∧ ss ≤ 59 then
            some (((hh * 3600 + mi * 60 + ss) * 1000 + ms3 : Nat), offMs)
          else none
        | none => none
      | none => none
    | none => none
  | _ => none

/-- `new Date(s).getTime()` for the modelled ISO-8601 subset; `none` is
`NaN` (an invalid date). -/
def jsDateParse (s : String) : Option Int :=
  match parse4 s.data with
  | some (y, '-' :: r1) =>
    match parse2 r1 with
    | some (mo, '-' :: r2) =>
      match parse2 r2 with
      | some (d, rest) =>
        if 1 ≤ mo ∧ mo ≤ 12 ∧ 1 ≤ d ∧ d ≤ daysInMonth y mo then
          let dayMs : Int := daysSinceEpoch y mo d * 86400000
          match rest with
          | [] => some dayMs
          | 'T' :: tr =>
            match parseTimePart tr with
            | some (timeMs, offMs) => some (dayMs + timeMs - offMs)
            | none => none
          | _ => none
        else none
      | _ => none
    | _ => none
  | _ => none

/-! ## Timezone offset parsing and "today" bounds (`parseTzOffsetMs`,
`fetchTodaysAppointments`) -/

/-- JavaScript truthiness of an optional string value (`undefined` and `""`
are falsy). -/
def jsTruthy : Option String → Bool
  | none => false
  | some s => !s.data.isEmpty

/-- `x || ""` for an optional string. -/
def jsOrEmpty : Option String → String
  | none => ""
  | some s => s

/-- `parseTzOffsetMs(tzStr)`: match `(tzStr || "+00:00")` against
`^([+-])(\d{2}):(\d{2})$`; on a match, `sign * (HH * 60 + MM) * 60 * 1000`,
otherwise 0. -/
def parseTzOffsetMs (tzStr : Option String) : Int :=
  let s := if jsTruthy tzStr then jsOrEmpty tzStr else "+00:00"
  match s.data with
  | [sg, h1, h2, c, m1, m2] =>
    if (sg = '+' ∨ sg = '-') ∧ h1.isDigit ∧ h2.isDigit ∧ c = ':' ∧
        m1.isDigit ∧ m2.isDigit then
      (if sg = '+' then 1 else -1) *
        ((charDigitVal h1 * 10 + charDigitVal h2) * 60 +
          (charDigitVal m1 * 10 + charDigitVal m2) : Nat) * 60 * 1000
    else 0
  | _ => 0

/-- The `startDate`/`endDate` pair `fetchTodaysAppointments` sends upstream:
snap `nowUtcMs + tzOffsetMs` to its UTC day start (`setUTCHours(0,0,0,0)`),
convert back, and add 24h − 1ms for the end. -/
def todayBounds (nowUtcMs : Int) (tzStr : Option String) : Int × Int :=
  let tzOffsetMs := parseTzOffsetMs tzStr
  let localNowSnapped := ((nowUtcMs + tzOffsetMs) / 86400000) * 86400000
  let startMs := localNowSnapped - tzOffsetMs
  (startMs, startMs + 24 * 60 * 60 * 1000 - 1)

/-! ## Time window and local-time formatting -/

/-- `WINDOW_BEFORE_MS`: 2 hours. -/
def WINDOW_BEFORE_MS : Int := 2 * 60 * 60 * 1000

/-- `WINDOW_AFTER_MS`: 4 hours. -/
def WINDOW_AFTER_MS : Int := 4 * 60 * 60 * 1000

/-- `isWithinWindow(appointmentStartMs, nowMs)`. -/
def isWithinWindow (appointmentStartMs nowMs : Int) : Bool :=
  decide (appointmentStartMs - WINDOW_BEFORE_MS ≤ nowMs) &&
  decide (nowMs ≤ appointmentStartMs + WINDOW_AFTER_MS)

/-- `String.padStart(2, "0")`. -/
def padStart2 (s : String) : String :=
  if s.length = 0 then "00" else if s.length = 1 then "0" ++ s else s

/-- The string built from the hour-of-day and minute: `h % 12 || 12`,
two-digit minutes, AM/PM split at `h >= 12`. -/
def rawTimeString (h m : Nat) : String :=
  let period := if 12 ≤ h then "PM" else "AM"
  let display := if h % 12 = 0 then 12 else h % 12
  Nat.repr display ++ ":" ++ padStart2 (Nat.repr m) ++ " " ++ period

/-- `formatLocalTime(epochMs, tzOffsetMs)`: shift by the offset and read the
UTC hour and minute fields of the shifted instant. -/
def formatLocalTime (epochMs tzOffsetMs : Int) : String :=
  let localMs := epochMs + tzOffsetMs
  rawTimeString ((localMs / 3600000) % 24).toNat ((localMs / 60000) % 60).toNat

/-! ## The decision procedure (`validateCode`) -/

/-- The code-format guard `/^[A-Za-z0-9]{4}$/`. -/
def isAlphanumChar (c : Char) : Bool :=
  ('A' ≤ c && c ≤ 'Z') || ('a' ≤ c && c ≤ 'z') || ('0' ≤ c && c ≤ '9')

/-- `^[A-Za-z0-9]{4}$` as a predicate on whole strings. -/
def isValidFormat (code : String) : Bool :=
  code.data.length == 4 && code.data.all isAlphanumChar

/-- `s.endsWith(code)` over the characters of the strings (for the ASCII
codes the validator feeds in, UTF-16 suffix and character suffix agree). -/
def jsEndsWith (s code : String) : Bool :=
  code.data.isSuffixOf s.data

/-- The filter predicate:
`typeof appt.contactId === "string" && appt.contactId.endsWith(code)`. -/
def matchesCode (code : String) (a : Appointment) : Bool :=
  match a.contactId with
  | .str s => jsEndsWith s code
  | _ => false

/-- Resolve the `startTime` field to epoch ms:
`typeof startTime === "number" ? startTime : new Date(startTime).getTime()`,
with `none` for `NaN`. -/
def resolveStartMs : StartTimeField → Option Int
  | .num n => some n
  | .str s => jsDateParse s

/-- The out-of-window error message. -/
def windowError (startMs tzOffsetMs : Int) : String :=
  "Appointment is at " ++ formatLocalTime startMs tzOffsetMs ++
  " but you are outside the access window (2 hours before → 4 hours after appointment time)."

/-- Steps 4-5 on the single matched appointment: start-time resolution, then
the window check. -/
def checkWindow (a : Appointment) (nowMs : Int) (tzStr : Option String) : Verdict :=
  match resolveStartMs a.startTime with
  | none => .invalid "Could not read appointment start time."
  | some startMs =>
    if isWithinWindow startMs nowMs then .valid
    else .invalid (windowError startMs (parseTzOffsetMs tzStr))

/-- Steps 3-5 of `validateCode`, after the format guard and the fetch:
match, disambiguate, and check the window. -/
def decideAgainst (code : String) (appointments : List Appointment)
    (nowMs : Int) (tzStr : Option String) : Verdict :=
  match appointments.filter (matchesCode code) with
  | [] => .invalid "No appointment found for today with this code."
  | [a] => checkWindow a nowMs tzStr
  | _ :: _ :: _ => .invalid "Ambiguous code — multiple appointments match. Please contact us."

/-- `validateCode` applied to an already-fetched appointment list. -/
def validateCode (code : String) (appointments : List Appointment)
    (nowMs : Int) (tzStr : Option String) : Verdict :=
  if isValidFormat code then decideAgainst code appointments nowMs tzStr
  else .invalid "Invalid code format. Expected 4 alphanumeric characters."

/-! ## The lookup boundary and the HTTP handler -/

/-- Body of a successful upstream response: `data.appointments ?? []` reads
either a present list or an absent/null field. -/
inductive UpstreamBody where
  | withAppointments (appointments : List Appointment)
  | missingAppointments
deriving DecidableEq, Repr

/-- `data.appointments ?? []`. -/
def extractAppointments : UpstreamBody → List Appointment
  | .withAppointments l => l
  | .missingAppointments => []

/-- Outcome of `fetchTodaysAppointments` as observed by `validateCode`:
either a parsed success body, or a thrown error (missing `GHL_API_KEY` or
`GHL_LOCATION_ID` configuration, or a non-2xx upstream response; `detail`
carries the exception message, e.g. the upstream status and body). -/
inductive LookupOutcome where
  | ok (body : UpstreamBody)
  | fail (detail : String)
deriving DecidableEq, Repr

/-- `validateCode` including the fetch: the format guard runs before the
fetch, and a thrown fetch error propagates (`none`). -/
def runValidate (code : String) (lookup : LookupOutcome) (nowMs : Int)
    (tzStr : Option String) : Option Verdict :=
  if isValidFormat code then
    match lookup with
    | .fail _ => none
    | .ok b => some (decideAgainst code (extractAppointments b) nowMs tzStr)
  else some (.invalid "Invalid code format. Expected 4 alphanumeric characters.")

/-- The parsed request body: `JSON.parse` threw, or an object whose
`contactId`/`code` fields are modelled as optional strings (absent or a
string value; other JSON value shapes are out of the modelled domain). -/
inductive RequestBody where
  | malformed
  | fields (contactId : Option String) (code : Option String)
deriving DecidableEq, Repr

/-- An HTTP response: status code and JSON body (`none` is the empty
preflight body). -/
structure Response where
  statusCode : Nat
  body : Option Verdict
deriving DecidableEq, Repr

/-- `String.prototype.trim`: strip whitespace from both ends. -/
def jsTrim (s : String) : String :=
  String.mk (((s.data.dropWhile Char.isWhitespace).reverse.dropWhile
    Char.isWhitespace).reverse)

/-- `(body.contactId || body.code || "")`. -/
def selectRawCode (contactId code : Option String) : String :=
  if jsTruthy contactId then jsOrEmpty contactId
  else if jsTruthy code then jsOrEmpty code
  else ""

/-- The handler after code extraction: reject an empty code, otherwise run
the validation and map a thrown error to a generic 500. -/
def processCode (code : String) (lookup : LookupOutcome) (nowMs : Int)
    (tzStr : Option String) : Response :=
  if code = "" then ⟨400, some (.invalid "contactId is required.")⟩
  else
    match runValidate code lookup nowMs tzStr with
    | some v => ⟨200, some v⟩
    | none => ⟨500, some (.invalid "Internal server error. Please try again.")⟩

/-- `exports.handler`: method gate, body parse, code extraction with
trimming, then the validation pipeline. -/
def handler (method : String) (reqBody : RequestBody) (lookup : LookupOutcome)
    (nowMs : Int) (tzStr : Option String) : Response :=
  if method = "OPTIONS" then ⟨204, none⟩
  else if method ≠ "POST" then ⟨405, some (.invalid "Method not allowed.")⟩
  else
    match reqBody with
    | .malformed => ⟨400, some (.invalid "Invalid JSON body.")⟩
    | .fields cid cf => processCode (jsTrim (selectRawCode cid cf)) lookup nowMs tzStr

/-! ## Spec-side comparison definitions (phrased from the specification's
words, to be proved equal to the code-side definitions above) -/

/-- Spec side: a `±HH:MM` offset string contributes
`sign·(HH·60+MM)·60·1000` ms; anything else is malformed. -/
def tzOffsetSpec (s : String) : Option Int :=
  match s.data with
  | [sg, h1, h2, c, m1, m2] =>
    if (sg = '+' ∨ sg = '-') ∧ h1.isDigit ∧ h2.isDigit ∧ c = ':' ∧
        m1.isDigit ∧ m2.isDigit then
      some ((if sg = '+' then 1 else -1) *
        ((charDigitVal h1 * 10 + charDigitVal h2) * 60 +
          (charDigitVal m1 * 10 + charDigitVal m2) : Nat) * 60 * 1000)
    else none
  | _ => none

/-- Spec side: local midnight of the local day containing `nowUtcMs` under
offset `offMs`, expressed back as a UTC epoch-ms timestamp. -/
def localMidnightUtcMs (nowUtcMs offMs : Int) : Int :=
  ((nowUtcMs + offMs) / 86400000) * 86400000 - offMs

/-- Spec side: time-of-day on a 12-hour clock, no leading zero on the hour,
two-digit minutes, AM before noon and PM from noon on. -/
def specTimeString (h m : Nat) : String :=
  let hour12 := if h = 0 ∨ h = 12 then 12 else h % 12
  let minutes := if m < 10 then "0" ++ Nat.repr m else Nat.repr m
  Nat.repr hour12 ++ ":" ++ minutes ++ " " ++ (if h < 12 then "AM" else "PM")

/-! ## Helper lemmas -/

/-- With a well-formed code, `validateCode` is the post-fetch decision. -/
theorem validateCode_of_format {code : String} (appts : List Appointment)
    (t : Int) (tz : Option String) (hfmt : isValidFormat code = true) :
    validateCode code appts t tz = decideAgainst code appts t tz := by
  simp [validateCode, hfmt]

/-- With exactly one filter match, the decision is the window check on it. -/
theorem decideAgainst_single {code : String} {appts : List Appointment}
    {a : Appointment} (t : Int) (tz : Option String)
    (hmatch : appts.filter (matchesCode code) = [a]) :
    decideAgainst code appts t tz = checkWindow a t tz := by
  simp [decideAgainst, hmatch]

/-- `isWithinWindow` unfolded to its two inclusive bounds. -/
theorem isWithinWindow_iff (s u : Int) :
    isWithinWindow s u = true ↔ s - 7200000 ≤ u ∧ u ≤ s + 14400000 := by
  simp only [isWithinWindow, WINDOW_BEFORE_MS, WINDOW_AFTER_MS,
    Bool.and_eq_true, decide_eq_true_eq]
  omega

/-- A falsy optional string (`undefined` or `""`) reads back as `""`. -/
theorem jsOrEmpty_of_falsy {o : Option String} (h : jsTruthy o = false) :
    jsOrEmpty o = "" := by
  match o with
  | none => rfl
  | some s =>
    obtain ⟨l⟩ := s
    cases l with
    | nil => rfl
    | cons c cs => simp [jsTruthy] at h

/-- The code-side time string agrees with the spec-side one on every
hour-of-day and minute. -/
theorem rawTimeString_eq_spec :
    ∀ h : Nat, h < 24 → ∀ m : Nat, m < 60 → rawTimeString h m = specTimeString h m := by
  decide

/-! ## Claim theorems -/

/-- C1: for a submitted code matching exactly one appointment with start
instant `s` and evaluation instant `t`, `validateCode` returns `valid:true`
iff `s − 2h ≤ t ≤ s + 4h`; both endpoints are inside the window, and any `t`
outside yields `valid:false` with the window-violation reason. -/
theorem C1_window_inclusive (code : String) (appts : List Appointment)
    (a : Appointment) (s t : Int) (tz : Option String)
    (hfmt : isValidFormat code = true)
    (hmatch : appts.filter (matchesCode code) = [a])
    (hstart : resolveStartMs a.startTime = some s) :
    (validateCode code appts t tz = .valid ↔ s - 7200000 ≤ t ∧ t ≤ s + 14400000) ∧
    validateCode code appts (s - 7200000) tz = .valid ∧
    validateCode code appts (s + 14400000) tz = .valid ∧
    (validateCode code appts t tz = .valid ∨
      validateCode code appts t tz = .invalid (windowError s (parseTzOffsetMs tz))) := by
  have hvc : ∀ u : Int, validateCode code appts u tz =
      if isWithinWindow s u then Verdict.valid
      else Verdict.invalid (windowError s (parseTzOffsetMs tz)) := by
    intro u
    rw [validateCode_of_format appts u tz hfmt, decideAgainst_single u tz hmatch]
    simp [checkWindow, hstart]
  refine ⟨⟨fun hv => ?_, fun hb => ?_⟩, ?_, ?_, ?_⟩
  · by_cases h : isWithinWindow s t = true
    · exact (isWithinWindow_iff s t).mp h
    · rw [hvc t, if_neg h] at hv
      exact absurd hv (by simp)
  · rw [hvc t, if_pos ((isWithinWindow_iff s t).mpr hb)]
  · rw [hvc _, if_pos ((isWithinWindow_iff s _).mpr (by omega))]
  · rw [hvc _, if_pos ((isWithinWindow_iff s _).mpr (by omega))]
  · rw [hvc t]
    by_cases h : isWithinWindow s t = true
    · rw [if_pos h]; left; rfl
    · rw [if_neg h]; right; rfl

/-- Witness for C1 at the spec's end-to-end example: appointment starting
2024-01-01T15:00:00Z, evaluated at 2024-01-01T16:00:00Z. -/
theorem C1_window_inclusive_witness :
    (validateCode "WZ0e" [⟨.str "hsAZzqlAcxscd0xlWZ0e", .str "2024-01-01T15:00:00Z"⟩]
        1704124800000 (some "+00:00") = .valid ↔
      (1704121200000 : Int) - 7200000 ≤ 1704124800000 ∧
        (1704124800000 : Int) ≤ 1704121200000 + 14400000) ∧
    validateCode "WZ0e" [⟨.str "hsAZzqlAcxscd0xlWZ0e", .str "2024-01-01T15:00:00Z"⟩]
        ((1704121200000 : Int) - 7200000) (some "+00:00") = .valid ∧
    validateCode "WZ0e" [⟨.str "hsAZzqlAcxscd0xlWZ0e", .str "2024-01-01T15:00:00Z"⟩]
        ((1704121200000 : Int) + 14400000) (some "+00:00") = .valid ∧
    (validateCode "WZ0e" [⟨.str "hsAZzqlAcxscd0xlWZ0e", .str "2024-01-01T15:00:00Z"⟩]
        1704124800000 (some "+00:00") = .valid ∨
      validateCode "WZ0e" [⟨.str "hsAZzqlAcxscd0xlWZ0e", .str "2024-01-01T15:00:00Z"⟩]
          1704124800000 (some "+00:00") =
        .invalid (windowError 1704121200000 (parseTzOffsetMs (some "+00:00")))) :=
  C1_window_inclusive "WZ0e" [⟨.str "hsAZzqlAcxscd0xlWZ0e", .str "2024-01-01T15:00:00Z"⟩]
    ⟨.str "hsAZzqlAcxscd0xlWZ0e", .str "2024-01-01T15:00:00Z"⟩
    1704121200000 1704124800000 (some "+00:00") (by decide) (by decide) (by decide)

/-- C2: a code failing `^[A-Za-z0-9]{4}$` yields the invalid-format reason,
for every lookup outcome whatsoever — the lookup collaborator is never
consulted and the verdict is independent of the appointment set. -/
theorem C2_format_short_circuit (code : String) (lookup : LookupOutcome)
    (t : Int) (tz : Option String)
    (hfmt : isValidFormat code = false) :
    runValidate code lookup t tz =
      some (.invalid "Invalid code format. Expected 4 alphanumeric characters.") := by
  simp [runValidate, hfmt]

/-- Witness for C2: a 3-character code, against a failing lookup. -/
theorem C2_format_short_circuit_witness :
    runValidate "ab1" (.fail "GHL appointments API returned 500: x") 0 none =
      some (.invalid "Invalid code format. Expected 4 alphanumeric characters.") :=
  C2_format_short_circuit "ab1" (.fail "GHL appointments API returned 500: x") 0 none
    (by decide)

/-- C3: with a well-formed code, the match step selects exactly the
appointments whose contact identifier matches (string whose characters end
with the code, case-sensitively); zero selected gives the no-appointment
reason, two or more give the ambiguous reason regardless of windows, and
exactly one proceeds to the window check. -/
theorem C3_match_disambiguation (code : String) (appts : List Appointment)
    (a b : Appointment) (l : List Appointment) (t : Int) (tz : Option String)
    (hfmt : isValidFormat code = true) :
    (a ∈ appts.filter (matchesCode code) ↔ a ∈ appts ∧ matchesCode code a = true) ∧
    (appts.filter (matchesCode code) = [] →
      validateCode code appts t tz = .invalid "No appointment found for today with this code.") ∧
    (appts.filter (matchesCode code) = a :: b :: l →
      validateCode code appts t tz =
        .invalid "Ambiguous code — multiple appointments match. Please contact us.") ∧
    (appts.filter (matchesCode code) = [a] →
      validateCode code appts t tz = checkWindow a t tz) := by
  refine ⟨List.mem_filter, fun h0 => ?_, fun h2 => ?_, fun h1 => ?_⟩
  · rw [validateCode_of_format appts t tz hfmt]
    simp [decideAgainst, h0]
  · rw [validateCode_of_format appts t tz hfmt]
    simp [decideAgainst, h2]
  · rw [validateCode_of_format appts t tz hfmt, decideAgainst_single t tz h1]

/-- Witness for C3: one application per branch — selection membership, an
empty match, an ambiguous double match (both individually in-window), and a
single match. -/
theorem C3_match_disambiguation_witness :
    ((⟨.str "11AAAA", .num 0⟩ : Appointment) ∈
        ([⟨.str "11AAAA", .num 0⟩, ⟨.str "22AAAA", .num 0⟩] :
          List Appointment).filter (matchesCode "AAAA") ↔
      (⟨.str "11AAAA", .num 0⟩ : Appointment) ∈
          ([⟨.str "11AAAA", .num 0⟩, ⟨.str "22AAAA", .num 0⟩] : List Appointment) ∧
        matchesCode "AAAA" ⟨.str "11AAAA", .num 0⟩ = true) ∧
    validateCode "AAAA" [] 0 none =
      .invalid "No appointment found for today with this code." ∧
    validateCode "AAAA" [⟨.str "11AAAA", .num 0⟩, ⟨.str "22AAAA", .num 0⟩] 0 none =
      .invalid "Ambiguous code — multiple appointments match. Please contact us." ∧
    validateCode "AAAA" [⟨.str "11AAAA", .num 0⟩] 0 none =
      checkWindow ⟨.str "11AAAA", .num 0⟩ 0 none :=
  ⟨(C3_match_disambiguation "AAAA" [⟨.str "11AAAA", .num 0⟩, ⟨.str "22AAAA", .num 0⟩]
      ⟨.str "11AAAA", .num 0⟩ ⟨.str "22AAAA", .num 0⟩ [] 0 none (by decide)).1,
   (C3_match_disambiguation "AAAA" [] ⟨.str "11AAAA", .num 0⟩ ⟨.str "22AAAA", .num 0⟩
      [] 0 none (by decide)).2.1 (by decide),
   (C3_match_disambiguation "AAAA" [⟨.str "11AAAA", .num 0⟩, ⟨.str "22AAAA", .num 0⟩]
      ⟨.str "11AAAA", .num 0⟩ ⟨.str "22AAAA", .num 0⟩ [] 0 none (by decide)).2.2.1
      (by decide),
   (C3_match_disambiguation "AAAA" [⟨.str "11AAAA", .num 0⟩] ⟨.str "11AAAA", .num 0⟩
      ⟨.str "22AAAA", .num 0⟩ [] 0 none (by decide)).2.2.2 (by decide)⟩

/-- C4: a code matching exactly one appointment whose start-time field does
not resolve to an instant (not a number, and not a string the date parser
accepts — e.g. the empty string) yields the could-not-read-start-time
reason; the decision procedure is a total function, so no exception
escapes. -/
theorem C4_unreadable_start (code : String) (appts : List Appointment)
    (a : Appointment) (t : Int) (tz : Option String)
    (hfmt : isValidFormat code = true)
    (hmatch : appts.filter (matchesCode code) = [a])
    (hbad : resolveStartMs a.startTime = none) :
    validateCode code appts t tz = .invalid "Could not read appointment start time." := by
  rw [validateCode_of_format appts t tz hfmt, decideAgainst_single t tz hmatch]
  simp [checkWindow, hbad]

/-- Witness for C4: a single matching appointment whose `startTime` is the
empty string. -/
theorem C4_unreadable_start_witness :
    validateCode "AB12" [⟨.str "zzAB12", .str ""⟩] 0 none =
      .invalid "Could not read appointment start time." :=
  C4_unreadable_start "AB12" [⟨.str "zzAB12", .str ""⟩] ⟨.str "zzAB12", .str ""⟩
    0 none (by decide) (by decide) (by decide)

/-- C5: when the lookup throws (missing credential or location configuration,
or a non-2xx upstream response, with arbitrary diagnostic detail), a request
that reaches the lookup step gets the generic internal-error outcome with
status 500 — never a business `valid:false` verdict, and nothing of the
upstream detail appears in the response (the response is a constant
independent of `detail`). -/
theorem C5_lookup_failure_generic (cid cf : Option String) (detail : String)
    (t : Int) (tz : Option String)
    (hne : jsTrim (selectRawCode cid cf) ≠ "")
    (hfmt : isValidFormat (jsTrim (selectRawCode cid cf)) = true) :
    handler "POST" (.fields cid cf) (.fail detail) t tz =
      ⟨500, some (.invalid "Internal server error. Please try again.")⟩ := by
  simp only [handler, if_neg (by decide : ¬("POST" = "OPTIONS")),
    if_neg (by simp : ¬("POST" ≠ "POST"))]
  simp [processCode, hne, runValidate, hfmt]

/-- Witness for C5: a clean 4-character code against an upstream 500. -/
theorem C5_lookup_failure_generic_witness :
    handler "POST" (.fields (some "AB12") none)
        (.fail "GHL appointments API returned 500: upstream body") 0 none =
      ⟨500, some (.invalid "Internal server error. Please try again.")⟩ :=
  C5_lookup_failure_generic (some "AB12") none
    "GHL appointments API returned 500: upstream body" 0 none (by decide) (by decide)

/-- C6: a well-formed `±HH:MM` offset contributes
`sign·(HH·60+MM)·60·1000` ms, an absent or malformed offset string parses to
0 (UTC), and for every instant the "today" bounds sent upstream are local
midnight as a UTC epoch-ms timestamp and that value plus 24h − 1ms. -/
theorem C6_today_bounds (sg h1 h2 m1 m2 : Char) (s : String) (now : Int)
    (tz : Option String)
    (hsg : sg = '+' ∨ sg = '-')
    (hd1 : h1.isDigit = true) (hd2 : h2.isDigit = true)
    (hd3 : m1.isDigit = true) (hd4 : m2.isDigit = true)
    (hmal : tzOffsetSpec s = none) :
    parseTzOffsetMs (some (String.mk [sg, h1, h2, ':', m1, m2])) =
      (if sg = '+' then 1 else -1) *
        ((charDigitVal h1 * 10 + charDigitVal h2) * 60 +
          (charDigitVal m1 * 10 + charDigitVal m2) : Nat) * 60 * 1000 ∧
    parseTzOffsetMs none = 0 ∧
    parseTzOffsetMs (some s) = 0 ∧
    todayBounds now tz =
      (localMidnightUtcMs now (parseTzOffsetMs tz),
       localMidnightUtcMs now (parseTzOffsetMs tz) + 24 * 60 * 60 * 1000 - 1) := by
  refine ⟨?_, by decide, ?_, rfl⟩
  · show parseTzOffsetMs (some ⟨[sg, h1, h2, ':', m1, m2]⟩) = _
    simp only [parseTzOffsetMs, jsTruthy, jsOrEmpty, List.isEmpty, Bool.not_false, if_true]
    rw [if_pos ⟨hsg, hd1, hd2, by trivial, hd3, hd4⟩]
  · obtain ⟨l⟩ := s
    rcases l with _ | ⟨c0, _ | ⟨c1, _ | ⟨c2, _ | ⟨c3, _ | ⟨c4, _ | ⟨c5, _ | ⟨c6, r⟩⟩⟩⟩⟩⟩⟩
    · decide
    · rfl
    · rfl
    · rfl
    · rfl
    · rfl
    · by_cases hc : (c0 = '+' ∨ c0 = '-') ∧ c1.isDigit = true ∧ c2.isDigit = true ∧
          c3 = ':' ∧ c4.isDigit = true ∧ c5.isDigit = true
      · exfalso
        simp only [tzOffsetSpec, if_pos hc] at hmal
        exact Option.some_ne_none _ hmal
      · simp only [parseTzOffsetMs, jsTruthy, jsOrEmpty, List.isEmpty, Bool.not_false, if_true]
        rw [if_neg hc]
    · rfl

/-- Witness for C6: offset `+05:30` (19 800 000 ms), malformed string
`"EST"`, and the bounds at a concrete instant with offset `-05:00`. -/
theorem C6_today_bounds_witness :
    parseTzOffsetMs (some (String.mk ['+', '0', '5', ':', '3', '0'])) =
      (if ('+' : Char) = '+' then 1 else -1) *
        ((charDigitVal '0' * 10 + charDigitVal '5') * 60 +
          (charDigitVal '3' * 10 + charDigitVal '0') : Nat) * 60 * 1000 ∧
    parseTzOffsetMs none = 0 ∧
    parseTzOffsetMs (some "EST") = 0 ∧
    todayBounds 1704139201000 (some "-05:00") =
      (localMidnightUtcMs 1704139201000 (parseTzOffsetMs (some "-05:00")),
       localMidnightUtcMs 1704139201000 (parseTzOffsetMs (some "-05:00")) +
         24 * 60 * 60 * 1000 - 1) :=
  C6_today_bounds '+' '0' '5' '3' '0' "EST" 1704139201000 (some "-05:00")
    (Or.inl rfl) (by decide) (by decide) (by decide) (by decide) (by decide)

/-- C7: the out-of-window reason formats the appointment's local time-of-day
with the configured offset on a 12-hour clock, no leading zero on the hour
and two-digit minutes; at the spec's example (start 2024-01-01T15:00:00Z,
offset +00:00, evaluation 2024-01-01T20:00:01Z) the exact message results. -/
theorem C7_local_time_format (dayIdx : Int) (h m : Nat) (ms off : Int)
    (hh : h < 24) (hm : m < 60)
    (hms : ms + off = dayIdx * 86400000 + (h : Int) * 3600000 + (m : Int) * 60000) :
    formatLocalTime ms off = specTimeString h m ∧
    validateCode "WZ0e" [⟨.str "hsAZzqlAcxscd0xlWZ0e", .str "2024-01-01T15:00:00Z"⟩]
        1704139201000 (some "+00:00") =
      .invalid "Appointment is at 3:00 PM but you are outside the access window (2 hours before → 4 hours after appointment time)." := by
  refine ⟨?_, by decide⟩
  have e1 : (ms + off) / 3600000 % 24 = (h : Int) := by omega
  have e2 : (ms + off) / 60000 % 60 = (m : Int) := by omega
  simp only [formatLocalTime, e1, e2, Int.toNat_natCast]
  exact rawTimeString_eq_spec h hh m hm

/-- Witness for C7: 15:00 UTC at offset 0 renders as `3:00 PM`. -/
theorem C7_local_time_format_witness :
    formatLocalTime 1704121200000 0 = specTimeString 15 0 ∧
    validateCode "WZ0e" [⟨.str "hsAZzqlAcxscd0xlWZ0e", .str "2024-01-01T15:00:00Z"⟩]
        1704139201000 (some "+00:00") =
      .invalid "Appointment is at 3:00 PM but you are outside the access window (2 hours before → 4 hours after appointment time)." :=
  C7_local_time_format 19723 15 0 1704121200000 0 (by decide) (by decide) (by decide)

/-- C8: the handler takes the candidate code as the first JS-truthy value of
the `contactId` then `code` fields, trims it, and hands exactly that to the
validation pipeline; when neither field yields a non-empty trimmed value the
request is rejected 400 with the required-field reason, for every lookup
outcome (the lookup step is never reached). -/
theorem C8_code_selection (cid cf : Option String) (lookup : LookupOutcome)
    (t : Int) (tz : Option String) :
    handler "POST" (.fields cid cf) lookup t tz =
      processCode (jsTrim (selectRawCode cid cf)) lookup t tz ∧
    (jsTruthy cid = true → selectRawCode cid cf = jsOrEmpty cid) ∧
    (jsTruthy cid = false → selectRawCode cid cf = jsOrEmpty cf) ∧
    (jsTrim (jsOrEmpty cid) = "" → jsTrim (jsOrEmpty cf) = "" →
      handler "POST" (.fields cid cf) lookup t tz =
        ⟨400, some (.invalid "contactId is required.")⟩) := by
  have hfac : handler "POST" (.fields cid cf) lookup t tz =
      processCode (jsTrim (selectRawCode cid cf)) lookup t tz := by
    simp only [handler, if_neg (by decide : ¬("POST" = "OPTIONS")),
      if_neg (by simp : ¬("POST" ≠ "POST"))]
  have hsel2 : jsTruthy cid = false → selectRawCode cid cf = jsOrEmpty cf := by
    intro h
    by_cases h2 : jsTruthy cf = true
    · simp [selectRawCode, h, h2]
    · rw [Bool.not_eq_true] at h2
      simp [selectRawCode, h, h2, jsOrEmpty_of_falsy h2]
  refine ⟨hfac, fun h => by simp [selectRawCode, h], hsel2, fun h1 h2 => ?_⟩
  have hempty : jsTrim (selectRawCode cid cf) = "" := by
    by_cases h : jsTruthy cid = true
    · rw [show selectRawCode cid cf = jsOrEmpty cid from by simp [selectRawCode, h], h1]
    · rw [Bool.not_eq_true] at h
      rw [hsel2 h, h2]
  rw [hfac, hempty]
  rfl

/-- Witness for C8: a whitespace-only primary field and an absent secondary
field select the primary, trim it to empty, and get rejected. -/
theorem C8_code_selection_witness :
    handler "POST" (.fields (some "   ") none) (.ok .missingAppointments) 0 none =
      processCode (jsTrim (selectRawCode (some "   ") none))
        (.ok .missingAppointments) 0 none ∧
    selectRawCode (some "   ") none = jsOrEmpty (some "   ") ∧
    handler "POST" (.fields (some "   ") none) (.ok .missingAppointments) 0 none =
      ⟨400, some (.invalid "contactId is required.")⟩ :=
  ⟨(C8_code_selection (some "   ") none (.ok .missingAppointments) 0 none).1,
   (C8_code_selection (some "   ") none (.ok .missingAppointments) 0 none).2.1 (by decide),
   (C8_code_selection (some "   ") none (.ok .missingAppointments) 0 none).2.2.2
     (by decide) (by decide)⟩

/-- C9: an appointment whose contact-identifier field is absent or not a
string never matches any code and is silently skipped by the match filter;
the match step is total over such records. -/
theorem C9_nonstring_excluded (code : String) (a : Appointment)
    (l : List Appointment)
    (hcid : a.contactId = .absent ∨ a.contactId = .nonString) :
    matchesCode code a = false ∧
    (a :: l).filter (matchesCode code) = l.filter (matchesCode code) := by
  have hm : matchesCode code a = false := by
    rcases hcid with h | h <;> simp [matchesCode, h]
  exact ⟨hm, by simp [List.filter_cons, hm]⟩

/-- Witness for C9: a contact-identifier-less record in front of a matching
one does not disturb the filter. -/
theorem C9_nonstring_excluded_witness :
    matchesCode "AAAA" ⟨.absent, .num 0⟩ = false ∧
    ([⟨.absent, .num 0⟩, ⟨.str "xxAAAA", .num 5⟩] :
        List Appointment).filter (matchesCode "AAAA") =
      ([⟨.str "xxAAAA", .num 5⟩] : List Appointment).filter (matchesCode "AAAA") :=
  C9_nonstring_excluded "AAAA" ⟨.absent, .num 0⟩ [⟨.str "xxAAAA", .num 5⟩]
    (Or.inl rfl)

/-- C10: a success body whose appointments list is absent or null reads back
as the empty list, and a well-formed code validated against it yields the
no-appointment reason, not a lookup failure. -/
theorem C10_missing_list_empty (code : String) (t : Int) (tz : Option String)
    (hfmt : isValidFormat code = true) :
    extractAppointments .missingAppointments = [] ∧
    runValidate code (.ok .missingAppointments) t tz =
      some (.invalid "No appointment found for today with this code.") := by
  refine ⟨rfl, ?_⟩
  simp [runValidate, hfmt, extractAppointments, decideAgainst]

/-- Witness for C10: a concrete well-formed code. -/
theorem C10_missing_list_empty_witness :
    extractAppointments .missingAppointments = ([] : List Appointment) ∧
    runValidate "AB12" (.ok .missingAppointments) 0 none =
      some (.invalid "No appointment found for today with this code.") :=
  C10_missing_list_empty "AB12" 0 none (by decide)

end FenceApi
